import Mathlib

/-!
Verification development for the ERC-8004 toolkit's Agent Assessment Engine
(src/audit.js, src/verify.js, src/scan.js, src/score.js).  The JavaScript
functions are shallowly embedded: metadata documents become an explicit
structure with optional fields, JavaScript string truthiness is modelled
explicitly, network probes become boolean oracles passed as arguments, and
the floating-point expression `Math.round(...)` is modelled by exact rational
arithmetic rounded half-up (`jround`).
-/

/-- Rounding as performed by JavaScript `Math.round`: half-up, i.e. `⌊q + 1/2⌋`.
The source computes the weighted sums in IEEE doubles; the model uses exact
rational arithmetic. -/
def jround (q : ℚ) : ℤ := ⌊q + 1/2⌋

/-- JavaScript `String.prototype.toLowerCase` (the strings in the source are
ASCII, where per-character lowering is exact). -/
def jsToLowerCase (s : String) : String := String.mk (s.data.map Char.toLower)

/-- Checks whether the first list is a prefix of the second (executable helper
for substring search). -/
def listStartsWith : List Char → List Char → Bool
  | [], _ => true
  | _ :: _, [] => false
  | a :: as, b :: bs => a = b && listStartsWith as bs

/-- Scans for the first occurrence of `sub` and returns the remainder of the
list after that occurrence, or `none` when `sub` does not occur. -/
def findRest (sub : List Char) : List Char → Option (List Char)
  | [] => if sub.isEmpty then some [] else none
  | c :: rest =>
    if listStartsWith sub (c :: rest) then some ((c :: rest).drop sub.length)
    else findRest sub rest

/-- JavaScript `s.includes(sub)`. -/
def strContainsSub (s sub : String) : Bool := (findRest sub.data s.data).isSome

/-- JavaScript `s.startsWith(p)`. -/
def jsStartsWith (s p : String) : Bool := listStartsWith p.data s.data

/-- JavaScript truthiness of an optional string field: absent (`undefined`)
and the empty string are falsy. -/
def truthy : Option String → Bool
  | none => false
  | some s => !s.isEmpty

/-- JavaScript `x || d` for an optional string `x` and default `d`. -/
def jsOr (o : Option String) (d : String) : String :=
  if truthy o then o.getD "" else d

/-- One entry of a metadata `services` array (`{ name?, endpoint? }`). -/
structure Service where
  name : Option String
  endpoint : Option String
deriving DecidableEq

/-- The value of the `services` field of a metadata document.  `absent` covers
a missing field and any falsy value; `notIterable` covers a present, truthy
value that is not an array and not iterable (the representative used by the
model is the JSON number `42`); `arr` is an actual array. -/
inductive Services where
  | absent
  | notIterable
  | arr (l : List Service)
deriving DecidableEq

/-- A decoded metadata document as consumed by the engine.  `none` in an
optional field models a missing key (`undefined`). -/
structure Metadata where
  name : Option String := none
  description : Option String := none
  active : Option Bool := none
  x402Support : Option Bool := none
  image : Option String := none
  version : Option String := none
  services : Services := Services.absent
deriving DecidableEq

/-- SUSPICIOUS_DOMAINS from audit.js. -/
def SUSPICIOUS_DOMAINS : List String :=
  ["bit.ly", "tinyurl.com", "is.gd", "t.co",
   "ngrok.io", "localhost", "127.0.0.1", "0.0.0.0"]

/-- One phishing regular expression of the form `/a.*b/i` from audit.js. -/
structure PhishPattern where
  pre : String
  post : String
deriving DecidableEq

/-- The `source` text of the regular expression, as used in finding messages. -/
def PhishPattern.source (p : PhishPattern) : String := p.pre ++ ".*" ++ p.post

/-- Whether the pattern `/pre.*post/` matches the (already lowercased) text:
an occurrence of `pre` followed, disjointly, by an occurrence of `post`.
The serialized JSON the source tests contains no raw newline characters, so
modelling `.*` as matching arbitrary characters is exact. -/
def PhishPattern.matches (p : PhishPattern) (text : String) : Bool :=
  match findRest p.pre.data text.data with
  | none => false
  | some rest => (findRest p.post.data rest).isSome

/-- PHISHING_PATTERNS from audit.js. -/
def PHISHING_PATTERNS : List PhishPattern :=
  [⟨"metamask", "connect"⟩, ⟨"wallet", "approve"⟩, ⟨"claim", "airdrop"⟩,
   ⟨"free", "token"⟩, ⟨"urgent", "action"⟩]

/-- KNOWN_BLACKLISTED_ADDRESSES from audit.js (stored lowercased). -/
def KNOWN_BLACKLISTED_ADDRESSES : List String :=
  [jsToLowerCase "0xd90e2f925DA726b50C4Ed8D0Fb90Ad053324F31b",
   jsToLowerCase "0x722122dF12D4e14e13Ac3b6895a86e84145b6967"]

/-- The `{ issues, warnings, score }` record returned by each audit sub-check. -/
structure DimScore where
  issues : List String
  warnings : List String
  score : ℤ
deriving DecidableEq

/-- The schema-check issue produced for one declared service lacking a
non-empty endpoint. -/
def serviceSchemaIssue (s : Service) : List String :=
  if truthy s.endpoint then []
  else ["Service \"" ++ jsOr s.name "unnamed" ++ "\" has no endpoint"]

/-- checkMetadataSchema from audit.js.  String length is modelled as the
number of characters. -/
def checkMetadataSchema (metadata : Option Metadata) : DimScore :=
  match metadata with
  | none =>
    { issues := ["No metadata found — agent has no identity information"],
      warnings := [], score := 0 }
  | some md =>
    let nameIssues := if truthy md.name then [] else ["Missing \"name\" field"]
    let descWarnings :=
      if truthy md.description then [] else ["Missing \"description\" field"]
    let lengthWarnings :=
      if truthy md.name ∧ 200 < (md.name.getD "").length then
        ["Name is suspiciously long (" ++ toString (md.name.getD "").length ++ " chars)"]
      else []
    let servicesWarnings :=
      match md.services with
      | Services.arr _ => []
      | _ => ["No services array — agent cannot be contacted"]
    let serviceIssues :=
      match md.services with
      | Services.arr l => l.flatMap serviceSchemaIssue
      | _ => []
    let issues := nameIssues ++ serviceIssues
    let warnings := descWarnings ++ lengthWarnings ++ servicesWarnings
    { issues := issues, warnings := warnings,
      score := max 0 (100 - 15 * (issues.length : ℤ) - 5 * (warnings.length : ℤ)) }

/-- Counts the leading decimal digits of a character list. -/
def countLeadingDigits : List Char → ℕ
  | c :: rest => if c.isDigit then countLeadingDigits rest + 1 else 0
  | [] => 0

/-- Consumes `\d{1,3}\.` at the head of the list (with backtracking accounted
for: the maximal digit run must have length 1–3 and be followed by a dot). -/
def octetDot (l : List Char) : Option (List Char) :=
  let m := countLeadingDigits l
  if 1 ≤ m ∧ m ≤ 3 then
    match l.drop m with
    | '.' :: rest => some rest
    | _ => none
  else none

/-- Whether `\d{1,3}\.\d{1,3}\.\d{1,3}\.\d{1,3}` matches at the head of the
list. -/
def ipMatchAt (l : List Char) : Bool :=
  match octetDot l with
  | none => false
  | some r1 =>
    match octetDot r1 with
    | none => false
    | some r2 =>
      match octetDot r2 with
      | none => false
      | some r3 => decide (1 ≤ countLeadingDigits r3)

/-- Whether `/https?:\/\/\d{1,3}\.\d{1,3}\.\d{1,3}\.\d{1,3}/` matches anywhere
in the list (the raw-IP test of checkEndpointSecurity). -/
def hasIpUrl : List Char → Bool
  | [] => false
  | c :: rest =>
    (listStartsWith "http://".data (c :: rest) && ipMatchAt ((c :: rest).drop 7)) ||
    (listStartsWith "https://".data (c :: rest) && ipMatchAt ((c :: rest).drop 8)) ||
    hasIpUrl rest

/-- The critical issues checkEndpointSecurity produces for one service. -/
def serviceEndpointIssues (s : Service) : List String :=
  let url := s.endpoint.getD ""
  let name := jsOr s.name "unnamed"
  if jsStartsWith url "http://" && !strContainsSub url "localhost" &&
      !strContainsSub url "127.0.0.1" then
    ["[" ++ name ++ "] Uses HTTP instead of HTTPS — traffic can be intercepted"]
  else []

/-- The warnings checkEndpointSecurity produces for one service. -/
def serviceEndpointWarnings (s : Service) : List String :=
  let url := s.endpoint.getD ""
  let name := jsOr s.name "unnamed"
  let domainWarnings :=
    (SUSPICIOUS_DOMAINS.filter (fun d => strContainsSub url d)).map
      (fun d => "[" ++ name ++ "] Uses suspicious domain: " ++ d)
  let ipWarnings :=
    if hasIpUrl url.data then
      ["[" ++ name ++ "] Uses raw IP address instead of domain"]
    else []
  domainWarnings ++ ipWarnings

/-- checkEndpointSecurity from audit.js.  When `services` is present, truthy
and not an array, the source's `for (const s of metadata.services)` throws a
`TypeError` (the value is not iterable); this is modelled by the `error`
result. -/
def checkEndpointSecurity (metadata : Option Metadata) : Except String DimScore :=
  match metadata with
  | none => Except.ok { issues := [], warnings := [], score := 100 }
  | some md =>
    match md.services with
    | Services.absent => Except.ok { issues := [], warnings := [], score := 100 }
    | Services.notIterable => Except.error "metadata.services is not iterable"
    | Services.arr l =>
      let issues := l.flatMap serviceEndpointIssues
      let warnings := l.flatMap serviceEndpointWarnings
      Except.ok
        { issues := issues, warnings := warnings,
          score := max 0 (100 - 20 * (issues.length : ℤ) - 10 * (warnings.length : ℤ)) }

/-- A JSON string literal (the metadata strings relevant to the checks contain
no characters needing escapes). -/
def quoteJson (s : String) : String := "\"" ++ s ++ "\""

/-- JSON.stringify of one service record. -/
def jsonStringifyService (s : Service) : String :=
  "\x7b" ++ String.intercalate ","
    ((s.name.map (fun n => "\"name\":" ++ quoteJson n)).toList ++
     (s.endpoint.map (fun e => "\"endpoint\":" ++ quoteJson e)).toList) ++ "\x7d"

/-- JSON.stringify of a metadata document; absent (`undefined`) fields are
skipped, exactly as JSON.stringify does.  The `notIterable` services value is
serialized as its representative `42`. -/
def jsonStringify (md : Metadata) : String :=
  let fields : List (Option String) :=
    [md.name.map (fun v => "\"name\":" ++ quoteJson v),
     md.description.map (fun v => "\"description\":" ++ quoteJson v),
     md.active.map (fun b => "\"active\":" ++ (if b then "true" else "false")),
     md.x402Support.map (fun b => "\"x402Support\":" ++ (if b then "true" else "false")),
     md.image.map (fun v => "\"image\":" ++ quoteJson v),
     md.version.map (fun v => "\"version\":" ++ quoteJson v),
     match md.services with
     | Services.absent => none
     | Services.notIterable => some "\"services\":42"
     | Services.arr l =>
       some ("\"services\":[" ++ String.intercalate "," (l.map jsonStringifyService) ++ "]")]
  "\x7b" ++ String.intercalate "," fields.reduceOption ++ "\x7d"

/-- checkContentSafety from audit.js. -/
def checkContentSafety (metadata : Option Metadata) : DimScore :=
  match metadata with
  | none => { issues := [], warnings := [], score := 100 }
  | some md =>
    let textToCheck := jsToLowerCase (jsonStringify md)
    let phishingIssues :=
      (PHISHING_PATTERNS.filter (fun p => p.matches textToCheck)).map
        (fun p => "Phishing pattern detected: " ++ p.source)
    let scriptIssues :=
      if strContainsSub textToCheck "<script" || strContainsSub textToCheck "javascript:" then
        ["Contains embedded JavaScript — potential XSS"]
      else []
    let dataIssues :=
      if strContainsSub textToCheck "data:text/html" then
        ["Contains data:text/html URI — potential phishing page"]
      else []
    let issues := phishingIssues ++ scriptIssues ++ dataIssues
    let warnings : List String := []
    { issues := issues, warnings := warnings,
      score := max 0 (100 - 25 * (issues.length : ℤ) - 10 * (warnings.length : ℤ)) }

/-- checkOwnerReputation from audit.js. -/
def checkOwnerReputation (owner : String) : DimScore :=
  let issues :=
    if KNOWN_BLACKLISTED_ADDRESSES.contains (jsToLowerCase owner) then
      ["Owner address is on known blacklist (sanctioned/malicious)"]
    else []
  { issues := issues, warnings := [], score := max 0 (100 - 50 * (issues.length : ℤ)) }

/-- One entry of the merged findings list of an audit report. -/
structure Finding where
  category : String
  text : String
  severity : String
deriving DecidableEq

/-- The `scores` record of an audit report. -/
structure AuditScores where
  schema : ℤ
  endpoint : ℤ
  content : ℤ
  reputation : ℤ
  overall : ℤ
deriving DecidableEq

/-- The report returned by auditAgent (the on-chain fields agentId/chain are
resolved by collaborators and omitted). -/
structure AuditReport where
  name : String
  owner : String
  scores : AuditScores
  riskLevel : String
  findings : List Finding
deriving DecidableEq

/-- The risk-level chain of auditAgent: `'LOW'`, overwritten for
`overallScore < 50` and `overallScore < 75`. -/
def riskLevelOf (overallScore : ℤ) : String :=
  if overallScore < 50 then "HIGH"
  else if overallScore < 75 then "MEDIUM"
  else "LOW"

/-- auditAgent from audit.js, taking the already-resolved owner address and
metadata document.  Propagates the `TypeError` of checkEndpointSecurity. -/
def auditAgent (owner : String) (metadata : Option Metadata) :
    Except String AuditReport :=
  let schema := checkMetadataSchema metadata
  match checkEndpointSecurity metadata with
  | Except.error e => Except.error e
  | Except.ok endpoint =>
    let content := checkContentSafety metadata
    let reputation := checkOwnerReputation owner
    let overallScore := jround ((schema.score : ℚ) * 0.25 + (endpoint.score : ℚ) * 0.30 +
      (content.score : ℚ) * 0.30 + (reputation.score : ℚ) * 0.15)
    let allIssues :=
      schema.issues.map (fun i => Finding.mk "Schema" i "critical") ++
      endpoint.issues.map (fun i => Finding.mk "Endpoint" i "critical") ++
      content.issues.map (fun i => Finding.mk "Content" i "critical") ++
      reputation.issues.map (fun i => Finding.mk "Reputation" i "critical") ++
      schema.warnings.map (fun i => Finding.mk "Schema" i "warning") ++
      endpoint.warnings.map (fun i => Finding.mk "Endpoint" i "warning") ++
      content.warnings.map (fun i => Finding.mk "Content" i "warning") ++
      reputation.warnings.map (fun i => Finding.mk "Reputation" i "warning")
    Except.ok
      { name := jsOr (metadata.bind (fun m => m.name)) "Unknown", owner := owner,
        scores :=
          { schema := schema.score, endpoint := endpoint.score,
            content := content.score, reputation := reputation.score,
            overall := overallScore },
        riskLevel := riskLevelOf overallScore,
        findings := allIssues }

/-- detectProtocol from verify.js. -/
def detectProtocol (service : Service) : String :=
  let name := jsToLowerCase (service.name.getD "")
  let endpoint := jsToLowerCase (service.endpoint.getD "")
  if strContainsSub name "mcp" || strContainsSub endpoint "mcp" then "mcp"
  else if strContainsSub name "a2a" || strContainsSub endpoint "a2a" then "a2a"
  else "http"

/-- The outcome of probing one endpoint.  The network call itself is external;
its reachability outcome is supplied by the `probe` oracle (url, protocol ↦
`res.ok`), and the I/O-dependent fields (status code, latency, error text) are
omitted. -/
structure EndpointCheck where
  url : String
  protocol : String
  ok : Bool
  serviceName : String
deriving DecidableEq

/-- The result record of verifyAgent. -/
structure VerifyResult where
  name : String
  owner : String
  endpoints : List EndpointCheck
  overallStatus : String
  score : ℤ
deriving DecidableEq

/-- The gate `!profile.metadata?.services?.length` of verifyAgent: yields the
declared service array when the metadata is present, its `services` field is
an array and that array is non-empty (a non-array services value has an
`undefined`, hence falsy, `length`). -/
def declaredServiceList : Option Metadata → Option (List Service)
  | none => none
  | some md =>
    match md.services with
    | Services.arr [] => none
    | Services.arr l => some l
    | _ => none

/-- The EndpointCheck record built by verifyAgent for one probed service. -/
def mkEndpointCheck (probe : String → String → Bool) (s : Service) : EndpointCheck :=
  { url := s.endpoint.getD "", protocol := detectProtocol s,
    ok := probe (s.endpoint.getD "") (detectProtocol s),
    serviceName := jsOr s.name "unnamed" }

/-- verifyAgent from verify.js, over the resolved owner and metadata and a
probe oracle giving each endpoint's reachability. -/
def verifyAgent (owner : String) (metadata : Option Metadata)
    (probe : String → String → Bool) : VerifyResult :=
  let name := jsOr (metadata.bind (fun m => m.name)) "Unknown"
  match declaredServiceList metadata with
  | none =>
    { name := name, owner := owner, endpoints := [],
      overallStatus := "no-endpoints", score := 0 }
  | some l =>
    let endpoints := (l.filter (fun s => truthy s.endpoint)).map (mkEndpointCheck probe)
    let alive := (endpoints.filter (fun c => c.ok)).length
    let total := endpoints.length
    if total = 0 then
      { name := name, owner := owner, endpoints := endpoints,
        overallStatus := "no-endpoints", score := 0 }
    else if alive = total then
      { name := name, owner := owner, endpoints := endpoints,
        overallStatus := "healthy", score := 100 }
    else if 0 < alive then
      { name := name, owner := owner, endpoints := endpoints,
        overallStatus := "degraded", score := jround ((alive : ℚ) / (total : ℚ) * 100) }
    else
      { name := name, owner := owner, endpoints := endpoints,
        overallStatus := "offline", score := 0 }

/-- The length JavaScript reads from `metadata.services?.length`, with a
missing or non-array value giving 0 (`undefined > 0` and `undefined > 1` are
both false, like `0 > 0` and `0 > 1`). -/
def servicesLengthGD : Services → ℕ
  | Services.arr l => l.length
  | _ => 0

/-- scoreMetadataCompleteness from score.js. -/
def scoreMetadataCompleteness (metadata : Option Metadata) : ℤ :=
  match metadata with
  | none => 0
  | some md =>
    let score : ℤ :=
      (if truthy md.name then 15 else 0) +
      (if truthy md.description then 15 else 0) +
      (if truthy md.description ∧ 50 < (md.description.getD "").length then 10 else 0) +
      (if md.active.isSome then 10 else 0) +
      (if md.x402Support.isSome then 10 else 0) +
      (if 0 < servicesLengthGD md.services then 20 else 0) +
      (if 1 < servicesLengthGD md.services then 10 else 0) +
      (if truthy md.image then 5 else 0) +
      (if truthy md.version then 5 else 0)
    min score 100

/-- The tier value of scoreAgent as a plain string constant. -/
def tierPlatinum : String := "🏆 Platinum"

/-- The Gold tier string of scoreAgent. -/
def tierGold : String := "🥇 Gold"

/-- The Silver tier string of scoreAgent. -/
def tierSilver : String := "🥈 Silver"

/-- The Bronze tier string of scoreAgent. -/
def tierBronze : String := "🥉 Bronze"

/-- The Unrated tier string of scoreAgent. -/
def tierUnrated : String := "⚪ Unrated"

/-- The tier chain of scoreAgent.  The initial `'Unknown'` value of the source
is dead: every branch of the if/else chain reassigns `tier`. -/
def tierStringOf (overall : ℤ) : String :=
  if 90 ≤ overall then tierPlatinum
  else if 75 ≤ overall then tierGold
  else if 50 ≤ overall then tierSilver
  else if 25 ≤ overall then tierBronze
  else tierUnrated

/-- The age sub-score of scoreAgent: `Math.min(100, Math.round((ageDays / 90) * 100))`. -/
def ageScoreOf (ageDays : ℚ) : ℤ := min 100 (jround (ageDays / 90 * 100))

/-- The `scores` record of a reputation report. -/
structure RepScores where
  metadata : ℤ
  health : ℤ
  age : ℤ
  activity : ℤ
  overall : ℤ
deriving DecidableEq

/-- The report returned by scoreAgent (the on-chain fields agentId/chain and
the `details` block of externally-resolved signals are omitted). -/
structure RepReport where
  name : String
  owner : String
  tier : String
  scores : RepScores
deriving DecidableEq

/-- scoreAgent from score.js.  The endpoint-health delegation to verifyAgent
is kept (the try/catch never fires in the model because the embedded
verifyAgent is total); the registration age in days and the activity sub-score
are supplied by the on-chain collaborator — the activity sub-score is taken as
an input because its derivation `Math.round(Math.log10(max(1, txCount)) * 33)`
is floating-point logarithm arithmetic. -/
def scoreAgent (owner : String) (metadata : Option Metadata)
    (probe : String → String → Bool) (ageDays : ℚ) (activityScore : ℤ) : RepReport :=
  let healthScore := (verifyAgent owner metadata probe).score
  let ageScore := ageScoreOf ageDays
  let metadataScore := scoreMetadataCompleteness metadata
  let overall := jround ((metadataScore : ℚ) * 0.25 + (healthScore : ℚ) * 0.30 +
    (ageScore : ℚ) * 0.20 + (activityScore : ℚ) * 0.25)
  { name := jsOr (metadata.bind (fun m => m.name)) "Unknown", owner := owner,
    tier := tierStringOf overall,
    scores :=
      { metadata := metadataScore, health := healthScore, age := ageScore,
        activity := activityScore, overall := overall } }

/-- One per-identity summary record pushed into `results.agents` by scanRecent. -/
structure AgentSummary where
  agentId : ℕ
  name : String
  owner : String
  score : ℤ
  riskLevel : String
  findingsCount : ℕ
  criticalFindings : ℕ
deriving DecidableEq

/-- The accumulated `results` record of scanRecent. -/
structure ScanResults where
  scanned : ℕ
  healthy : ℕ
  warnings : ℕ
  critical : ℕ
  agents : List AgentSummary
deriving DecidableEq

/-- One registration to scan, paired with the outcome of `auditAgent` for it
(the audit involves network resolution and may throw; the outcome is an input
of the batch step). -/
structure RegItem where
  agentId : ℕ
  owner : String
  audit : Except String AuditReport

/-- The summary record scanRecent pushes for a successfully audited identity. -/
def mkAgentSummary (reg : RegItem) (audit : AuditReport) : AgentSummary :=
  { agentId := reg.agentId, name := audit.name, owner := reg.owner,
    score := audit.scores.overall, riskLevel := audit.riskLevel,
    findingsCount := audit.findings.length,
    criticalFindings := (audit.findings.filter (fun f => f.severity = "critical")).length }

/-- The loop body of scanRecent: a thrown audit is caught and only logged
(the accumulator is returned unchanged); a successful audit increments
`scanned`, the bucket matching the risk level, and appends a summary. -/
def scanStep (results : ScanResults) (reg : RegItem) : ScanResults :=
  match reg.audit with
  | Except.error _ => results
  | Except.ok audit =>
    let base :=
      { results with scanned := results.scanned + 1,
                     agents := results.agents ++ [mkAgentSummary reg audit] }
    if audit.riskLevel = "LOW" then { base with healthy := base.healthy + 1 }
    else if audit.riskLevel = "MEDIUM" then { base with warnings := base.warnings + 1 }
    else { base with critical := base.critical + 1 }

/-- scanRecent from scan.js, over the resolved registration list. -/
def scanRecent (registrations : List RegItem) : ScanResults :=
  registrations.foldl scanStep
    { scanned := 0, healthy := 0, warnings := 0, critical := 0, agents := [] }

instance {ε α : Type} [DecidableEq ε] [DecidableEq α] : DecidableEq (Except ε α) := fun a b =>
  match a, b with
  | Except.ok x, Except.ok y =>
    if h : x = y then isTrue (congrArg Except.ok h)
    else isFalse (fun hc => h (Except.ok.inj hc))
  | Except.error x, Except.error y =>
    if h : x = y then isTrue (congrArg Except.error h)
    else isFalse (fun hc => h (Except.error.inj hc))
  | Except.ok _, Except.error _ => isFalse (fun hc => Except.noConfusion hc)
  | Except.error _, Except.ok _ => isFalse (fun hc => Except.noConfusion hc)

/-- Rank of a risk level, used to state monotonicity: safer levels rank higher. -/
def riskRank (r : String) : ℕ :=
  if r = "HIGH" then 0 else if r = "MEDIUM" then 1 else 2

/-- Rank of a tier string, used to state monotonicity. -/
def tierRank (t : String) : ℕ :=
  if t = tierUnrated then 0
  else if t = tierBronze then 1
  else if t = tierSilver then 2
  else if t = tierGold then 3
  else 4

/-- C3: risk level and tier are pure, monotone non-decreasing functions of the
overall score, with thresholds overall<50 → HIGH, <75 → MEDIUM, ≥75 → LOW and
≥90 → Platinum, ≥75 → Gold, ≥50 → Silver, ≥25 → Bronze, else Unrated, checked
at all the boundary points 49/50/74/75 and 24/25/49/50/74/75/89/90. -/
theorem risk_tier_monotone_thresholds :
    (∀ s t : ℤ, s ≤ t → riskRank (riskLevelOf s) ≤ riskRank (riskLevelOf t)) ∧
    (∀ s t : ℤ, s ≤ t → tierRank (tierStringOf s) ≤ tierRank (tierStringOf t)) ∧
    riskLevelOf 49 = "HIGH" ∧ riskLevelOf 50 = "MEDIUM" ∧
    riskLevelOf 74 = "MEDIUM" ∧ riskLevelOf 75 = "LOW" ∧
    tierStringOf 24 = tierUnrated ∧ tierStringOf 25 = tierBronze ∧
    tierStringOf 49 = tierBronze ∧ tierStringOf 50 = tierSilver ∧
    tierStringOf 74 = tierSilver ∧ tierStringOf 75 = tierGold ∧
    tierStringOf 89 = tierGold ∧ tierStringOf 90 = tierPlatinum := by
  refine ⟨?_, ?_, by decide, by decide, by decide, by decide, by decide, by decide,
    by decide, by decide, by decide, by decide, by decide, by decide⟩
  · intro s t hst
    unfold riskLevelOf
    split_ifs <;> first | decide | omega
  · intro s t hst
    unfold tierStringOf
    split_ifs <;> first | decide | omega

/-- C3 witness: the monotonicity statements instantiated at concrete scores. -/
theorem risk_tier_monotone_thresholds_witness :
    riskRank (riskLevelOf 10) ≤ riskRank (riskLevelOf 80) ∧
    tierRank (tierStringOf 10) ≤ tierRank (tierStringOf 95) :=
  ⟨risk_tier_monotone_thresholds.1 10 80 (by decide),
   risk_tier_monotone_thresholds.2.1 10 95 (by decide)⟩

/-- The tier field of a reputation report is the tier chain applied to the
report's own overall score. -/
theorem scoreAgent_tier_eq (owner : String) (metadata : Option Metadata)
    (probe : String → String → Bool) (ageDays : ℚ) (activityScore : ℤ) :
    (scoreAgent owner metadata probe ageDays activityScore).tier =
      tierStringOf (scoreAgent owner metadata probe ageDays activityScore).scores.overall := rfl

/-- C8 (amended): the tier produced by the reputation scorer is always one of
exactly five closed strings — but they are the emoji-prefixed values
`"⚪ Unrated"`, `"🥉 Bronze"`, `"🥈 Silver"`, `"🥇 Gold"`, `"🏆 Platinum"`,
not the plain names. -/
theorem tier_closed_set (owner : String) (metadata : Option Metadata)
    (probe : String → String → Bool) (ageDays : ℚ) (activityScore : ℤ) :
    (scoreAgent owner metadata probe ageDays activityScore).tier ∈
      [tierUnrated, tierBronze, tierSilver, tierGold, tierPlatinum] := by
  rw [scoreAgent_tier_eq]
  unfold tierStringOf
  split_ifs <;> simp

/-- C8 (counterexample): on a concrete input the scorer returns the tier
string `"⚪ Unrated"`, which is not one of the five plain strings the claim
enumerates. -/
theorem tier_not_plain_string_counterexample :
    (scoreAgent "0xabc" none (fun _ _ => false) 0 0).tier = tierUnrated ∧
    (["Unrated", "Bronze", "Silver", "Gold", "Platinum"].contains tierUnrated) = false := by
  constructor
  · rw [scoreAgent_tier_eq]
    have hov : (scoreAgent "0xabc" none (fun _ _ => false) 0 0).scores.overall = 0 := by
      simp only [scoreAgent, scoreMetadataCompleteness, verifyAgent, declaredServiceList,
        ageScoreOf]
      norm_num [jround]
    rw [hov]
    decide
  · decide

/-- A clamped sub-check score `max 0 x` with `x ≤ 100` lies in `[0, 100]`. -/
theorem clamp_mem (x : ℤ) (hx : x ≤ 100) : 0 ≤ max 0 x ∧ max 0 x ≤ 100 :=
  ⟨le_max_left _ _, max_le (by norm_num) hx⟩

/-- C9: each of the four audit sub-checks, wherever it returns at all, returns
an (integer) score in [0, 100], for every metadata document (including absent
metadata) and owner address, with any number of findings. -/
theorem subcheck_scores_in_range (metadata : Option Metadata) (owner : String)
    (d : DimScore) :
    (0 ≤ (checkMetadataSchema metadata).score ∧ (checkMetadataSchema metadata).score ≤ 100) ∧
    (checkEndpointSecurity metadata = Except.ok d → 0 ≤ d.score ∧ d.score ≤ 100) ∧
    (0 ≤ (checkContentSafety metadata).score ∧ (checkContentSafety metadata).score ≤ 100) ∧
    (0 ≤ (checkOwnerReputation owner).score ∧ (checkOwnerReputation owner).score ≤ 100) := by
  refine ⟨?_, ?_, ?_, ?_⟩
  · cases metadata with
    | none => simp [checkMetadataSchema]
    | some md =>
      simp only [checkMetadataSchema]
      exact clamp_mem _ (by omega)
  · intro h
    cases metadata with
    | none =>
      simp only [checkEndpointSecurity, Except.ok.injEq] at h
      rw [← h]
      norm_num
    | some md =>
      rcases hsv : md.services with _ | _ | l <;> simp only [checkEndpointSecurity, hsv] at h
      · simp only [Except.ok.injEq] at h
        rw [← h]; norm_num
      · exact absurd h (by simp)
      · simp only [Except.ok.injEq] at h
        rw [← h]
        exact clamp_mem _ (by omega)
  · cases metadata with
    | none => simp [checkContentSafety]
    | some md =>
      simp only [checkContentSafety]
      exact clamp_mem _ (by omega)
  · simp only [checkOwnerReputation]
    exact clamp_mem _ (by omega)

/-- C9 witness: the range statement instantiated at absent metadata and a
concrete owner, with the endpoint-security hypothesis discharged. -/
theorem subcheck_scores_in_range_witness :
    0 ≤ ({ issues := [], warnings := [], score := 100 } : DimScore).score ∧
    ({ issues := [], warnings := [], score := 100 } : DimScore).score ≤ 100 :=
  (subcheck_scores_in_range none "0xabc" _).2.1 (by decide)

/-- C10: in the metadata-completeness rubric, name/description/image/version
are judged by JavaScript truthiness — an empty-string value scores exactly like
an absent field — while `active` and `x402Support` are judged by key existence
(`!== undefined`), so explicit `false` values still earn their +10 points. -/
theorem metadata_completeness_truthiness (md : Metadata) :
    scoreMetadataCompleteness (some { md with description := some "" }) =
      scoreMetadataCompleteness (some { md with description := none }) ∧
    scoreMetadataCompleteness (some { md with name := some "" }) =
      scoreMetadataCompleteness (some { md with name := none }) ∧
    scoreMetadataCompleteness (some { md with image := some "" }) =
      scoreMetadataCompleteness (some { md with image := none }) ∧
    scoreMetadataCompleteness (some { md with version := some "" }) =
      scoreMetadataCompleteness (some { md with version := none }) ∧
    scoreMetadataCompleteness (some { md with active := some false }) =
      scoreMetadataCompleteness (some { md with active := none }) + 10 ∧
    scoreMetadataCompleteness (some { md with x402Support := some false }) =
      scoreMetadataCompleteness (some { md with x402Support := none }) + 10 := by
  have h1 : truthy (some "") = false := by decide
  have h2 : truthy (none : Option String) = false := by decide
  refine ⟨?_, ?_, ?_, ?_, ?_, ?_⟩
  · simp [scoreMetadataCompleteness, h1, h2]
  · simp [scoreMetadataCompleteness, h1, h2]
  · simp [scoreMetadataCompleteness, h1, h2]
  · simp [scoreMetadataCompleteness, h1, h2]
  · simp [scoreMetadataCompleteness]
    split_ifs <;> decide
  · simp [scoreMetadataCompleteness]
    split_ifs <;> decide

/-- The summaries scanRecent accumulates: one per successfully audited item,
in input order; failed items contribute nothing. -/
def scanOkSummaries (registrations : List RegItem) : List AgentSummary :=
  registrations.filterMap (fun it =>
    match it.audit with
    | Except.ok a => some (mkAgentSummary it a)
    | Except.error _ => none)

/-- One scan step increments `scanned` exactly when the item's audit succeeded. -/
theorem scanStep_scanned (acc : ScanResults) (reg : RegItem) :
    (scanStep acc reg).scanned = acc.scanned + (if reg.audit.isOk then 1 else 0) := by
  cases h : reg.audit with
  | error e => simp [scanStep, h, Except.isOk, Except.toBool]
  | ok a =>
    simp only [scanStep, h, Except.isOk, Except.toBool]
    split_ifs <;> simp

/-- One scan step appends the item's summary exactly when its audit succeeded. -/
theorem scanStep_agents (acc : ScanResults) (reg : RegItem) :
    (scanStep acc reg).agents = acc.agents ++
      (match reg.audit with
       | Except.ok a => [mkAgentSummary reg a]
       | Except.error _ => []) := by
  cases h : reg.audit with
  | error e => simp [scanStep, h]
  | ok a =>
    simp only [scanStep, h]
    split_ifs <;> simp

/-- One scan step increments exactly one risk bucket when the audit succeeded. -/
theorem scanStep_buckets (acc : ScanResults) (reg : RegItem) :
    (scanStep acc reg).healthy + (scanStep acc reg).warnings + (scanStep acc reg).critical =
      acc.healthy + acc.warnings + acc.critical + (if reg.audit.isOk then 1 else 0) := by
  cases h : reg.audit with
  | error e => simp [scanStep, h, Except.isOk, Except.toBool]
  | ok a =>
    simp only [scanStep, h, Except.isOk, Except.toBool]
    split_ifs <;> simp <;> omega

/-- Invariants of the scan fold, for an arbitrary starting accumulator. -/
theorem scan_foldl_inv (registrations : List RegItem) (acc : ScanResults) :
    (registrations.foldl scanStep acc).scanned =
      acc.scanned + (registrations.filter (fun it => it.audit.isOk)).length ∧
    (registrations.foldl scanStep acc).agents = acc.agents ++ scanOkSummaries registrations ∧
    (registrations.foldl scanStep acc).healthy + (registrations.foldl scanStep acc).warnings +
        (registrations.foldl scanStep acc).critical =
      acc.healthy + acc.warnings + acc.critical +
        (registrations.filter (fun it => it.audit.isOk)).length := by
  induction registrations generalizing acc with
  | nil => simp [scanOkSummaries]
  | cons hd tl ih =>
    simp only [List.foldl_cons, List.filter_cons, scanOkSummaries, List.filterMap_cons]
    obtain ⟨ih1, ih2, ih3⟩ := ih (scanStep acc hd)
    cases h : hd.audit with
    | error e =>
      refine ⟨?_, ?_, ?_⟩
      · rw [ih1, scanStep_scanned, h]
        simp [Except.isOk, Except.toBool]
      · rw [ih2, scanStep_agents, h]
        simp [scanOkSummaries]
      · rw [ih3, scanStep_buckets, h]
        simp [Except.isOk, Except.toBool]
    | ok a =>
      refine ⟨?_, ?_, ?_⟩
      · rw [ih1, scanStep_scanned, h]
        simp [Except.isOk, Except.toBool]
        try omega
      · rw [ih2, scanStep_agents, h]
        simp [scanOkSummaries]
      · rw [ih3, scanStep_buckets, h]
        simp [Except.isOk, Except.toBool]
        try omega

/-- C5: for every batch, the scan report satisfies
`scanned = healthy + warnings + critical`, however many items failed. -/
theorem scan_counts_invariant (registrations : List RegItem) :
    (scanRecent registrations).scanned =
      (scanRecent registrations).healthy + (scanRecent registrations).warnings +
        (scanRecent registrations).critical := by
  obtain ⟨h1, -, h3⟩ :=
    scan_foldl_inv registrations
      { scanned := 0, healthy := 0, warnings := 0, critical := 0, agents := [] }
  simp only [scanRecent]
  simp at h1 h3
  omega

/-- A fixed healthy audit report used to build a concrete scan batch. -/
def demoReport (owner : String) : AuditReport :=
  { name := "Demo", owner := owner,
    scores := { schema := 100, endpoint := 100, content := 100, reputation := 100, overall := 100 },
    riskLevel := "LOW", findings := [] }

/-- A batch of three identities whose second audit throws during resolution. -/
def demoBatch : List RegItem :=
  [{ agentId := 1, owner := "0xaaa", audit := Except.ok (demoReport "0xaaa") },
   { agentId := 2, owner := "0xbbb", audit := Except.error "failed to resolve" },
   { agentId := 3, owner := "0xccc", audit := Except.ok (demoReport "0xccc") }]

/-- C6: an identity whose audit throws is skipped — `scanned` counts exactly
the successful audits, the summaries list contains exactly the successful
items in order (so a failing identity never appears), and later items are
still processed; in particular, for a batch of 3 whose second item throws,
`scanned = 2` and the summaries are for identities 1 and 3. -/
theorem scan_skips_failed_audits (registrations : List RegItem) :
    (scanRecent registrations).scanned =
      (registrations.filter (fun it => it.audit.isOk)).length ∧
    (scanRecent registrations).agents = scanOkSummaries registrations ∧
    (scanRecent demoBatch).scanned = 2 ∧
    (scanRecent demoBatch).agents.map (fun a => a.agentId) = [1, 3] := by
  obtain ⟨h1, h2, -⟩ :=
    scan_foldl_inv registrations
      { scanned := 0, healthy := 0, warnings := 0, critical := 0, agents := [] }
  refine ⟨?_, ?_, by decide, by decide⟩
  · simp only [scanRecent]
    simp at h1
    exact h1
  · simp only [scanRecent]
    simpa using h2

/-- A metadata document whose `services` field is present and truthy but not
an array (the JavaScript value `42`): the malformation the schema check
tolerates but the endpoint-security check does not. -/
def mdNonArrayServices : Metadata :=
  { name := some "Agent", services := Services.notIterable }

/-- C7 (failing input): for a present but malformed document whose `services`
is a truthy non-array, the schema check degrades to a warning as documented,
but `checkEndpointSecurity`'s `for (const s of metadata.services)` throws a
`TypeError`, and `auditAgent` propagates it instead of returning a report. -/
theorem nonarray_services_throws :
    checkEndpointSecurity (some mdNonArrayServices) =
      Except.error "metadata.services is not iterable" ∧
    auditAgent "0xowner" (some mdNonArrayServices) =
      Except.error "metadata.services is not iterable" ∧
    (checkMetadataSchema (some mdNonArrayServices)).issues = [] ∧
    (checkMetadataSchema (some mdNonArrayServices)).warnings =
      ["Missing \"description\" field", "No services array — agent cannot be contacted"] ∧
    (checkMetadataSchema (some mdNonArrayServices)).score = 90 := by
  refine ⟨by decide, ?_, by decide, by decide, by decide⟩
  unfold auditAgent
  decide

/-- The overall field of a reputation report is the half-up rounding of the
documented weighted sum of its own four sub-scores (definitional). -/
theorem scoreAgent_overall_eq (owner : String) (metadata : Option Metadata)
    (probe : String → String → Bool) (ageDays : ℚ) (activityScore : ℤ) :
    (scoreAgent owner metadata probe ageDays activityScore).scores.overall =
      jround (((scoreAgent owner metadata probe ageDays activityScore).scores.metadata : ℚ) * 0.25 +
        ((scoreAgent owner metadata probe ageDays activityScore).scores.health : ℚ) * 0.30 +
        ((scoreAgent owner metadata probe ageDays activityScore).scores.age : ℚ) * 0.20 +
        ((scoreAgent owner metadata probe ageDays activityScore).scores.activity : ℚ) * 0.25) := rfl

/-- C2: every audit report's overall score is
`round(schema×0.25 + endpoint×0.30 + content×0.30 + reputation×0.15)` of its
own sub-scores, every reputation report's overall score is
`round(metadata×0.25 + health×0.30 + age×0.20 + activity×0.25)` of its own
sub-scores, and each weight family sums to exactly 1. -/
theorem overall_is_weighted_round (owner : String) (metadata : Option Metadata)
    (r : AuditReport) (h : auditAgent owner metadata = Except.ok r)
    (owner2 : String) (metadata2 : Option Metadata)
    (probe : String → String → Bool) (ageDays : ℚ) (activityScore : ℤ) :
    r.scores.overall = jround ((r.scores.schema : ℚ) * 0.25 + (r.scores.endpoint : ℚ) * 0.30 +
      (r.scores.content : ℚ) * 0.30 + (r.scores.reputation : ℚ) * 0.15) ∧
    (scoreAgent owner2 metadata2 probe ageDays activityScore).scores.overall =
      jround (((scoreAgent owner2 metadata2 probe ageDays activityScore).scores.metadata : ℚ) * 0.25 +
        ((scoreAgent owner2 metadata2 probe ageDays activityScore).scores.health : ℚ) * 0.30 +
        ((scoreAgent owner2 metadata2 probe ageDays activityScore).scores.age : ℚ) * 0.20 +
        ((scoreAgent owner2 metadata2 probe ageDays activityScore).scores.activity : ℚ) * 0.25) ∧
    ((0.25 : ℚ) + 0.30 + 0.30 + 0.15 = 1) ∧ ((0.25 : ℚ) + 0.30 + 0.20 + 0.25 = 1) := by
  refine ⟨?_, scoreAgent_overall_eq owner2 metadata2 probe ageDays activityScore,
    by norm_num, by norm_num⟩
  unfold auditAgent at h
  cases hE : checkEndpointSecurity metadata with
  | error e => rw [hE] at h; exact absurd h (by simp)
  | ok d =>
    rw [hE] at h
    simp only [Except.ok.injEq] at h
    rw [← h]

/-- Evaluation shape of auditAgent when the endpoint check succeeds and the
rounded overall score is known. -/
theorem auditAgent_eval (owner : String) (metadata : Option Metadata) (d : DimScore)
    (ov : ℤ)
    (hE : checkEndpointSecurity metadata = Except.ok d)
    (hJ : jround (((checkMetadataSchema metadata).score : ℚ) * 0.25 + (d.score : ℚ) * 0.30 +
      ((checkContentSafety metadata).score : ℚ) * 0.30 +
      ((checkOwnerReputation owner).score : ℚ) * 0.15) = ov) :
    auditAgent owner metadata = Except.ok
      { name := jsOr (metadata.bind (fun m => m.name)) "Unknown", owner := owner,
        scores :=
          { schema := (checkMetadataSchema metadata).score, endpoint := d.score,
            content := (checkContentSafety metadata).score,
            reputation := (checkOwnerReputation owner).score, overall := ov },
        riskLevel := riskLevelOf ov,
        findings :=
          (checkMetadataSchema metadata).issues.map (fun i => Finding.mk "Schema" i "critical") ++
          d.issues.map (fun i => Finding.mk "Endpoint" i "critical") ++
          (checkContentSafety metadata).issues.map (fun i => Finding.mk "Content" i "critical") ++
          (checkOwnerReputation owner).issues.map (fun i => Finding.mk "Reputation" i "critical") ++
          (checkMetadataSchema metadata).warnings.map (fun i => Finding.mk "Schema" i "warning") ++
          d.warnings.map (fun i => Finding.mk "Endpoint" i "warning") ++
          (checkContentSafety metadata).warnings.map (fun i => Finding.mk "Content" i "warning") ++
          (checkOwnerReputation owner).warnings.map (fun i => Finding.mk "Reputation" i "warning") } := by
  unfold auditAgent
  rw [hE]
  simp only [hJ]

/-- The audit report produced for an identity with no metadata and an
unlisted owner `"0xaa"`. -/
def auditReportNoMetadata : AuditReport :=
  { name := "Unknown", owner := "0xaa",
    scores := { schema := 0, endpoint := 100, content := 100, reputation := 100, overall := 75 },
    riskLevel := "LOW",
    findings := [Finding.mk "Schema" "No metadata found — agent has no identity information" "critical"] }

/-- auditAgent evaluated at absent metadata and owner `"0xaa"`. -/
theorem auditAgent_none_eval : auditAgent "0xaa" none = Except.ok auditReportNoMetadata := by
  have h1 : (checkMetadataSchema none).score = 0 := by decide
  have h2 : (checkContentSafety none).score = 100 := by decide
  have h3 : (checkOwnerReputation "0xaa").score = 100 := by decide
  have h := auditAgent_eval "0xaa" none { issues := [], warnings := [], score := 100 } 75
    (by decide) (by rw [h1, h2, h3]; norm_num [jround])
  rw [h]
  decide

/-- C2 witness: the weighted-round statement at a concrete audited identity
and a concrete reputation report. -/
theorem overall_is_weighted_round_witness :
    auditReportNoMetadata.scores.overall =
      jround ((auditReportNoMetadata.scores.schema : ℚ) * 0.25 +
        (auditReportNoMetadata.scores.endpoint : ℚ) * 0.30 +
        (auditReportNoMetadata.scores.content : ℚ) * 0.30 +
        (auditReportNoMetadata.scores.reputation : ℚ) * 0.15) ∧
    (scoreAgent "0xbb" none (fun _ _ => false) 0 0).scores.overall =
      jround (((scoreAgent "0xbb" none (fun _ _ => false) 0 0).scores.metadata : ℚ) * 0.25 +
        ((scoreAgent "0xbb" none (fun _ _ => false) 0 0).scores.health : ℚ) * 0.30 +
        ((scoreAgent "0xbb" none (fun _ _ => false) 0 0).scores.age : ℚ) * 0.20 +
        ((scoreAgent "0xbb" none (fun _ _ => false) 0 0).scores.activity : ℚ) * 0.25) ∧
    ((0.25 : ℚ) + 0.30 + 0.30 + 0.15 = 1) ∧ ((0.25 : ℚ) + 0.30 + 0.20 + 0.25 = 1) :=
  overall_is_weighted_round "0xaa" none auditReportNoMetadata auditAgent_none_eval
    "0xbb" none (fun _ _ => false) 0 0

/-- Replacing a reputation sub-score of 50 by 100 under weight 0.15 moves the
half-up-rounded overall score by exactly 7 or 8 points. -/
theorem jround_diff_7_8 (t : ℚ) :
    jround (t + 15) - jround (t + 15/2) = 7 ∨ jround (t + 15) - jround (t + 15/2) = 8 := by
  unfold jround
  have e1 : t + 15 + 1/2 = (t + 1/2) + ((15 : ℤ) : ℚ) := by push_cast; ring
  have e2 : t + 15/2 + 1/2 = t + ((8 : ℤ) : ℚ) := by push_cast; ring
  rw [e1, e2, Int.floor_add_int, Int.floor_add_int]
  have h1 : ⌊t⌋ ≤ ⌊t + 1/2⌋ := Int.floor_le_floor (by linarith)
  have h2 : ⌊t + 1/2⌋ ≤ ⌊t⌋ + 1 := by
    have h3 := Int.floor_le_floor (α := ℚ) (show t + 1/2 ≤ t + 1 by linarith)
    simpa [Int.floor_add_one] using h3
  omega

/-- C1 (amended): for a deny-listed owner the owner-reputation check returns
score 50 (not 0) with exactly one critical issue, and the overall audit score
is 7 or 8 points lower — not exactly 15 — than for an otherwise-identical
record with a non-listed owner. -/
theorem blacklisted_owner_amended (owner1 owner2 : String) (metadata : Option Metadata)
    (r1 r2 : AuditReport)
    (hb : KNOWN_BLACKLISTED_ADDRESSES.contains (jsToLowerCase owner1) = true)
    (hn : KNOWN_BLACKLISTED_ADDRESSES.contains (jsToLowerCase owner2) = false)
    (h1 : auditAgent owner1 metadata = Except.ok r1)
    (h2 : auditAgent owner2 metadata = Except.ok r2) :
    r1.scores.reputation = 50 ∧
    (checkOwnerReputation owner1).issues.length = 1 ∧
    (r2.scores.overall - r1.scores.overall = 7 ∨ r2.scores.overall - r1.scores.overall = 8) := by
  have hb2 : jsToLowerCase owner1 ∈ KNOWN_BLACKLISTED_ADDRESSES := by simpa using hb
  have hn2 : jsToLowerCase owner2 ∉ KNOWN_BLACKLISTED_ADDRESSES := by simpa using hn
  have hs1 : (checkOwnerReputation owner1).score = 50 := by
    simp [checkOwnerReputation, hb2]
  have hi1 : (checkOwnerReputation owner1).issues.length = 1 := by
    simp [checkOwnerReputation, hb2]
  have hs2 : (checkOwnerReputation owner2).score = 100 := by
    simp [checkOwnerReputation, hn2]
  unfold auditAgent at h1 h2
  cases hE : checkEndpointSecurity metadata with
  | error e =>
    rw [hE] at h1
    exact absurd h1 (by simp)
  | ok d =>
    rw [hE] at h1 h2
    simp only [Except.ok.injEq] at h1 h2
    subst h1
    subst h2
    refine ⟨hs1, hi1, ?_⟩
    show jround (((checkMetadataSchema metadata).score : ℚ) * 0.25 + (d.score : ℚ) * 0.30 +
        ((checkContentSafety metadata).score : ℚ) * 0.30 +
        ((checkOwnerReputation owner2).score : ℚ) * 0.15) -
      jround (((checkMetadataSchema metadata).score : ℚ) * 0.25 + (d.score : ℚ) * 0.30 +
        ((checkContentSafety metadata).score : ℚ) * 0.30 +
        ((checkOwnerReputation owner1).score : ℚ) * 0.15) = 7 ∨ _ = 8
    rw [hs1, hs2]
    rw [show (((100 : ℤ)) : ℚ) * 0.15 = 15 from by norm_num,
      show (((50 : ℤ)) : ℚ) * 0.15 = 15/2 from by norm_num]
    exact jround_diff_7_8 _

/-- A minimal well-formed metadata document with only a name. -/
def mdNamedOnly : Metadata := { name := some "Agent" }

/-- The audit report for `mdNamedOnly` under the deny-listed Tornado Cash
router address. -/
def auditReportListed : AuditReport :=
  { name := "Agent", owner := "0xd90e2f925DA726b50C4Ed8D0Fb90Ad053324F31b",
    scores := { schema := 90, endpoint := 100, content := 100, reputation := 50, overall := 90 },
    riskLevel := "LOW",
    findings :=
      [Finding.mk "Reputation" "Owner address is on known blacklist (sanctioned/malicious)" "critical",
       Finding.mk "Schema" "Missing \"description\" field" "warning",
       Finding.mk "Schema" "No services array — agent cannot be contacted" "warning"] }

/-- The audit report for `mdNamedOnly` under a non-listed owner. -/
def auditReportUnlisted : AuditReport :=
  { name := "Agent", owner := "0x1111111111111111111111111111111111111111",
    scores := { schema := 90, endpoint := 100, content := 100, reputation := 100, overall := 98 },
    riskLevel := "LOW",
    findings :=
      [Finding.mk "Schema" "Missing \"description\" field" "warning",
       Finding.mk "Schema" "No services array — agent cannot be contacted" "warning"] }

/-- auditAgent evaluated at `mdNamedOnly` with the deny-listed owner. -/
theorem auditAgent_listed_eval :
    auditAgent "0xd90e2f925DA726b50C4Ed8D0Fb90Ad053324F31b" (some mdNamedOnly) =
      Except.ok auditReportListed := by
  have hs : (checkMetadataSchema (some mdNamedOnly)).score = 90 := by decide
  have hc : (checkContentSafety (some mdNamedOnly)).score = 100 := by decide
  have hr : (checkOwnerReputation "0xd90e2f925DA726b50C4Ed8D0Fb90Ad053324F31b").score = 50 := by
    decide
  have h := auditAgent_eval "0xd90e2f925DA726b50C4Ed8D0Fb90Ad053324F31b" (some mdNamedOnly)
    { issues := [], warnings := [], score := 100 } 90
    (by decide) (by rw [hs, hc, hr]; norm_num [jround])
  rw [h]
  decide

/-- auditAgent evaluated at `mdNamedOnly` with a non-listed owner. -/
theorem auditAgent_unlisted_eval :
    auditAgent "0x1111111111111111111111111111111111111111" (some mdNamedOnly) =
      Except.ok auditReportUnlisted := by
  have hs : (checkMetadataSchema (some mdNamedOnly)).score = 90 := by decide
  have hc : (checkContentSafety (some mdNamedOnly)).score = 100 := by decide
  have hr : (checkOwnerReputation "0x1111111111111111111111111111111111111111").score = 100 := by
    decide
  have h := auditAgent_eval "0x1111111111111111111111111111111111111111" (some mdNamedOnly)
    { issues := [], warnings := [], score := 100 } 98
    (by decide) (by rw [hs, hc, hr]; norm_num [jround])
  rw [h]
  decide

/-- C1 (counterexample): for the deny-listed Tornado Cash router address the
owner-reputation score is 50, not 0, and on a concrete otherwise-identical
record the overall audit score drops by 8 points, not 15. -/
theorem blacklisted_owner_counterexample :
    (checkOwnerReputation "0xd90e2f925DA726b50C4Ed8D0Fb90Ad053324F31b").score = 50 ∧
    (0 : ℤ) < 50 ∧
    (auditAgent "0x1111111111111111111111111111111111111111" (some mdNamedOnly)).map
      (fun r => r.scores.overall) = Except.ok 98 ∧
    (auditAgent "0xd90e2f925DA726b50C4Ed8D0Fb90Ad053324F31b" (some mdNamedOnly)).map
      (fun r => r.scores.overall) = Except.ok 90 ∧
    (98 : ℤ) - 90 = 8 ∧ (8 : ℤ) < 15 := by
  refine ⟨by decide, by decide, ?_, ?_, by decide, by decide⟩
  · rw [auditAgent_unlisted_eval]
    decide
  · rw [auditAgent_listed_eval]
    decide

/-- C1 witness: the amended statement at the concrete deny-listed address and
concrete metadata. -/
theorem blacklisted_owner_amended_witness :
    auditReportListed.scores.reputation = 50 ∧
    (checkOwnerReputation "0xd90e2f925DA726b50C4Ed8D0Fb90Ad053324F31b").issues.length = 1 ∧
    (auditReportUnlisted.scores.overall - auditReportListed.scores.overall = 7 ∨
     auditReportUnlisted.scores.overall - auditReportListed.scores.overall = 8) :=
  blacklisted_owner_amended "0xd90e2f925DA726b50C4Ed8D0Fb90Ad053324F31b"
    "0x1111111111111111111111111111111111111111" (some mdNamedOnly)
    auditReportListed auditReportUnlisted (by decide) (by decide)
    auditAgent_listed_eval auditAgent_unlisted_eval

/-- The number of probed endpoints of a verification run (`total` in verify.js). -/
def verifyTotal (owner : String) (metadata : Option Metadata)
    (probe : String → String → Bool) : ℕ :=
  (verifyAgent owner metadata probe).endpoints.length

/-- The number of reachable probed endpoints of a verification run (`alive`). -/
def verifyAlive (owner : String) (metadata : Option Metadata)
    (probe : String → String → Bool) : ℕ :=
  ((verifyAgent owner metadata probe).endpoints.filter (fun c => c.ok)).length

/-- C4: endpoint verification classifies as the spec states — absent metadata
or no declared services gives `no-endpoints`/0; otherwise only services with a
truthy endpoint are probed (others skipped and not counted); zero remaining
gives `no-endpoints`/0, all reachable gives `healthy`/100, some-but-not-all
gives `degraded`/`round(100·alive/total)`, none gives `offline`/0. -/
theorem verify_classification (owner : String) (metadata : Option Metadata)
    (probe : String → String → Bool) :
    (declaredServiceList metadata = none →
      (verifyAgent owner metadata probe).overallStatus = "no-endpoints" ∧
      (verifyAgent owner metadata probe).score = 0 ∧
      (verifyAgent owner metadata probe).endpoints = []) ∧
    (∀ l, declaredServiceList metadata = some l →
      (verifyAgent owner metadata probe).endpoints =
        (l.filter (fun s => truthy s.endpoint)).map (mkEndpointCheck probe)) ∧
    (verifyTotal owner metadata probe = 0 →
      (verifyAgent owner metadata probe).overallStatus = "no-endpoints" ∧
      (verifyAgent owner metadata probe).score = 0) ∧
    (0 < verifyTotal owner metadata probe →
      verifyAlive owner metadata probe = verifyTotal owner metadata probe →
      (verifyAgent owner metadata probe).overallStatus = "healthy" ∧
      (verifyAgent owner metadata probe).score = 100) ∧
    (0 < verifyAlive owner metadata probe →
      verifyAlive owner metadata probe < verifyTotal owner metadata probe →
      (verifyAgent owner metadata probe).overallStatus = "degraded" ∧
      (verifyAgent owner metadata probe).score =
        jround ((verifyAlive owner metadata probe : ℚ) /
          (verifyTotal owner metadata probe : ℚ) * 100)) ∧
    (0 < verifyTotal owner metadata probe →
      verifyAlive owner metadata probe = 0 →
      (verifyAgent owner metadata probe).overallStatus = "offline" ∧
      (verifyAgent owner metadata probe).score = 0) := by
  cases hD : declaredServiceList metadata with
  | none =>
    have hv : verifyAgent owner metadata probe =
        { name := jsOr (metadata.bind (fun m => m.name)) "Unknown", owner := owner,
          endpoints := [], overallStatus := "no-endpoints", score := 0 } := by
      unfold verifyAgent
      rw [hD]
    refine ⟨fun _ => by simp [hv], ?_, fun _ => by simp [hv], ?_, ?_, ?_⟩
    · intro l hl
      exact absurd hl (by simp)
    · intro ht _
      exact absurd ht (by simp [verifyTotal, hv])
    · intro ha _
      exact absurd ha (by simp [verifyAlive, hv])
    · intro ht _
      exact absurd ht (by simp [verifyTotal, hv])
  | some l =>
    have hv : verifyAgent owner metadata probe =
        (if ((l.filter (fun s => truthy s.endpoint)).map (mkEndpointCheck probe)).length = 0 then
          { name := jsOr (metadata.bind (fun m => m.name)) "Unknown", owner := owner,
            endpoints := (l.filter (fun s => truthy s.endpoint)).map (mkEndpointCheck probe),
            overallStatus := "no-endpoints", score := 0 }
        else if (((l.filter (fun s => truthy s.endpoint)).map (mkEndpointCheck probe)).filter
              (fun c => c.ok)).length =
            ((l.filter (fun s => truthy s.endpoint)).map (mkEndpointCheck probe)).length then
          { name := jsOr (metadata.bind (fun m => m.name)) "Unknown", owner := owner,
            endpoints := (l.filter (fun s => truthy s.endpoint)).map (mkEndpointCheck probe),
            overallStatus := "healthy", score := 100 }
        else if 0 < (((l.filter (fun s => truthy s.endpoint)).map (mkEndpointCheck probe)).filter
              (fun c => c.ok)).length then
          { name := jsOr (metadata.bind (fun m => m.name)) "Unknown", owner := owner,
            endpoints := (l.filter (fun s => truthy s.endpoint)).map (mkEndpointCheck probe),
            overallStatus := "degraded",
            score := jround ((((((l.filter (fun s => truthy s.endpoint)).map
                (mkEndpointCheck probe)).filter (fun c => c.ok)).length : ℕ) : ℚ) /
              ((((l.filter (fun s => truthy s.endpoint)).map (mkEndpointCheck probe)).length : ℕ) : ℚ) *
              100) }
        else
          { name := jsOr (metadata.bind (fun m => m.name)) "Unknown", owner := owner,
            endpoints := (l.filter (fun s => truthy s.endpoint)).map (mkEndpointCheck probe),
            overallStatus := "offline", score := 0 }) := by
      unfold verifyAgent
      rw [hD]
    have hT : verifyTotal owner metadata probe =
        ((l.filter (fun s => truthy s.endpoint)).map (mkEndpointCheck probe)).length := by
      simp only [verifyTotal, hv, apply_ite VerifyResult.endpoints]
      split_ifs <;> rfl
    have hA : verifyAlive owner metadata probe =
        (((l.filter (fun s => truthy s.endpoint)).map (mkEndpointCheck probe)).filter
          (fun c => c.ok)).length := by
      simp only [verifyAlive, hv, apply_ite VerifyResult.endpoints]
      split_ifs <;> rfl
    refine ⟨?_, ?_, ?_, ?_, ?_, ?_⟩
    · intro h
      exact absurd h (by simp)
    · intro l' hl
      injection hl with hl'
      subst hl'
      rw [hv]
      split_ifs <;> rfl
    · intro ht
      rw [hT] at ht
      rw [hv]
      split_ifs with h1 h2 h3 <;> first | exact ⟨rfl, rfl⟩ | omega
    · intro ht hall
      rw [hT] at ht
      rw [hA, hT] at hall
      rw [hv]
      split_ifs with h1 h2 h3 <;> first | exact ⟨rfl, rfl⟩ | omega
    · intro ha hlt
      rw [hA] at ha
      rw [hA, hT] at hlt
      rw [hv]
      split_ifs with h1 h2 h3
      all_goals first | omega | exact ⟨rfl, by rw [hA, hT]⟩
    · intro ht hz
      rw [hT] at ht
      rw [hA] at hz
      rw [hv]
      split_ifs with h1 h2 h3 <;> first | exact ⟨rfl, rfl⟩ | omega

/-- A metadata document declaring two probeable services. -/
def mdTwoServices : Metadata :=
  { name := some "Two",
    services := Services.arr
      [{ name := some "api", endpoint := some "https://x.example/api" },
       { name := some "web", endpoint := some "https://y.example/app" }] }

/-- A probe oracle under which only the first demo endpoint is reachable. -/
def probeFirst : String → String → Bool := fun url _ => url == "https://x.example/api"

/-- C4 witness: the classification at a concrete two-service identity with
exactly one reachable endpoint — status `degraded`, score `round(100·1/2)`. -/
theorem verify_classification_witness :
    (verifyAgent "0xo" (some mdTwoServices) probeFirst).overallStatus = "degraded" ∧
    (verifyAgent "0xo" (some mdTwoServices) probeFirst).score =
      jround ((verifyAlive "0xo" (some mdTwoServices) probeFirst : ℚ) /
        (verifyTotal "0xo" (some mdTwoServices) probeFirst : ℚ) * 100) :=
  (verify_classification "0xo" (some mdTwoServices) probeFirst).2.2.2.2.1
    (by decide) (by decide)
